import Mathlib

/-!
Verification of the stint-level performance extraction and aggregation
pipeline of the F1 Performance Attribution Model (`master_analysis.py`).

The embedding models pandas DataFrames as Lean lists of records.  Lap times
and positions are exact rationals (the numeric claims concern exact values),
consistency (a standard deviation) lives in the reals because it involves a
square root.  Fallible library calls (`scipy.stats.linregress`, `pd.concat`)
are modelled by `Option`/`Except`, mirroring the exceptions they raise.
-/

namespace F1

/-- One row of the FastF1 laps table, restricted to the columns read by
`master_analysis.py`: Driver, Stint, LapNumber, LapTime (in seconds),
PitInTime/PitOutTime presence flags, and TrackStatus. -/
structure Lap where
  driver : String
  stint : Int
  lapNumber : Int
  lapTime : ℚ
  pitIn : Bool
  pitOut : Bool
  trackStatus : String
deriving DecidableEq

/-- Mean of a list of rationals, as computed by `pandas.Series.mean`. -/
def qmean (xs : List ℚ) : ℚ := xs.sum / xs.length

/-- Sample variance with `ddof = 1`, the square of `pandas.Series.std`. -/
def sampleVar (xs : List ℚ) : ℚ :=
  (xs.map (fun x => (x - qmean xs) ^ 2)).sum / ((xs.length : ℚ) - 1)

/-- Standard deviation as computed by `pandas.Series.std` (`ddof = 1`). -/
noncomputable def seriesStd (xs : List ℚ) : ℝ := Real.sqrt (sampleVar xs)

/-- Mean of a list of reals (`numpy.mean`). -/
noncomputable def rmean (xs : List ℝ) : ℝ := xs.sum / xs.length

/-- Minimum of an integer column (`Series.min`); 0 on an empty column
(unreached: all call sites pass nonempty lists). -/
def intMin : List Int → Int
  | [] => 0
  | x :: xs => xs.foldl min x

/-- Slope of `scipy.stats.linregress xs ys`.  Returns `none` exactly when
scipy raises: on empty input, and when all x values are identical with more
than one point (ValueError).  The one-point case is degenerate (scipy
produces NaN); it is modelled as `none` and never reached (call sites
guarantee at least 3 points). -/
def linregressSlope (xs ys : List ℚ) : Option ℚ :=
  match xs with
  | [] => none
  | [_] => none
  | x0 :: x1 :: rest =>
    if (x1 :: rest).all (fun x => decide (x = x0)) then none
    else
      let xbar := qmean xs
      let ybar := qmean ys
      let ssxm := qmean (xs.map (fun x => (x - xbar) ^ 2))
      let ssxym := qmean ((xs.zip ys).map (fun p => (p.1 - xbar) * (p.2 - ybar)))
      some (ssxym / ssxm)

/-- `Laps.pick_wo_box()`: keep laps with neither a pit-in nor a pit-out time. -/
def pickWoBox (ls : List Lap) : List Lap :=
  ls.filter (fun l => !l.pitIn && !l.pitOut)

/-- Line 89: `laps_stint.pick_wo_box().pick_track_status('1')`. -/
def cleanLapsOf (stintLaps : List Lap) : List Lap :=
  (pickWoBox stintLaps).filter (fun l => l.trackStatus == "1")

/-- The `LapTimeSeconds` column of a lap set (line 94). -/
def lapTimes (ls : List Lap) : List ℚ := ls.map (·.lapTime)

/-- Line 95: keep laps with
`LapTimeSeconds < LapTimeSeconds.mean() + 5` (strict). -/
def outlierFilter (clean : List Lap) : List Lap :=
  clean.filter (fun l => decide (l.lapTime < qmean (lapTimes clean) + 5))

/-- Line 105: the code's in-stint lap index column,
`StintLap = LapNumber - Stint.min() + 1` — note it subtracts the minimum of
the Stint column (the stint number), not of the LapNumber column. -/
def stintLapIndices (final : List Lap) : List ℚ :=
  final.map (fun l => (l.lapNumber : ℚ) - (intMin (final.map (·.stint)) : ℚ) + 1)

/-- Modelled from the spec (for comparison with `stintLapIndices`, which is
the code's computation): the in-stint lap index is the lap number minus the
stint's first (minimum) lap number, offset so the indices start at 1. -/
def specStintLapIndices (final : List Lap) : List ℚ :=
  final.map (fun l => (l.lapNumber : ℚ) - (intMin (final.map (·.lapNumber)) : ℚ) + 1)

/-- Lines 85-111, the body of the per-stint loop of `get_stint_performance`,
acting on the accumulator pair (driver_degs, driver_cons).  Mirrors the
source order: the two `< 3` guards `continue`; the consistency is appended
to `driver_cons` (line 102) BEFORE the regression is attempted (line 106);
an exception from `linregress` (modelled by `none`) is caught by the
`except` clause and the loop continues with the accumulator as it then
stands. -/
noncomputable def stintStep (stintLaps : List Lap) (acc : List ℚ × List ℝ) :
    List ℚ × List ℝ :=
  let clean := cleanLapsOf stintLaps
  if clean.length < 3 then acc
  else
    let final := outlierFilter clean
    if final.length < 3 then acc
    else
      let acc1 : List ℚ × List ℝ := (acc.1, acc.2 ++ [seriesStd (lapTimes final)])
      match linregressSlope (stintLapIndices final) (lapTimes final) with
      | some slope => (acc1.1 ++ [slope], acc1.2)
      | none => acc1

/-- `Series.unique()`: distinct values in order of first appearance. -/
def uniqueKeep {α : Type} [DecidableEq α] (xs : List α) : List α :=
  xs.foldl (fun acc x => if x ∈ acc then acc else acc ++ [x]) []

/-- Lines 78-111: process all stints of one driver, in stint order of first
appearance, returning the pair (driver_degs, driver_cons). -/
noncomputable def processDriver (laps : List Lap) (driver : String) :
    List ℚ × List ℝ :=
  let dlaps := laps.filter (fun l => l.driver == driver)
  let stints := uniqueKeep (dlaps.map (·.stint))
  stints.foldl (fun acc st => stintStep (dlaps.filter (fun l => l.stint == st)) acc)
    ([], [])

/-- One output record of `get_stint_performance`. -/
structure DriverStintPerf where
  driver : String
  avgDegradation : ℚ
  avgConsistency : ℝ

/-- Lines 69-124: `get_stint_performance`.  A driver is emitted only when
`driver_degs` is nonempty (line 114); the record carries
`np.mean(driver_degs)` and `np.mean(driver_cons)`. -/
noncomputable def getStintPerformance (laps : List Lap) : List DriverStintPerf :=
  (uniqueKeep (laps.map (·.driver))).filterMap (fun d =>
    let p := processDriver laps d
    if p.1 ≠ [] then some ⟨d, qmean p.1, rmean p.2⟩ else none)

/-- Lookup of a driver's `AvgDegradation` in the extractor output. -/
noncomputable def degOf (perfs : List DriverStintPerf) (d : String) : Option ℚ :=
  (perfs.find? (fun p => p.driver == d)).map (·.avgDegradation)

/-- Lookup of a driver's `AvgConsistency` in the extractor output. -/
noncomputable def consOf (perfs : List DriverStintPerf) (d : String) : Option ℝ :=
  (perfs.find? (fun p => p.driver == d)).map (·.avgConsistency)

/-- One row of `session.results` as read by `get_start_performance`
(line 44): Abbreviation, GridPosition, TeamName. -/
structure GridEntry where
  abbreviation : String
  gridPosition : ℚ
  teamName : String
deriving DecidableEq

/-- One row of `session.laps.pick_laps(1)` as read by
`get_start_performance` (line 48): Driver, Position. -/
structure Lap1Entry where
  driver : String
  position : ℚ
deriving DecidableEq

/-- Lines 36-64: `get_start_performance`.  `pd.merge(grid_df, lap_1_df,
left_on='Abbreviation', right_on='Driver')` is an inner join (pandas
default `how='inner'`, left row order, here with at most one lap-1 row per
driver), followed by the `GridPosition > 0` filter and
`PositionsGained = GridPosition - Position`, indexed by Driver. -/
def getStartPerformance (grid : List GridEntry) (lap1 : List Lap1Entry) :
    List (String × ℚ) :=
  ((grid.filterMap (fun (g : GridEntry) =>
      (lap1.find? (fun (l : Lap1Entry) => l.driver == g.abbreviation)).map
        (fun l => (g, l)))).filter
    (fun p => decide (0 < p.1.gridPosition))).map
    (fun p => (p.2.driver, p.1.gridPosition - p.2.position))

/-- Lookup in a driver-keyed metric mapping (`DataFrame.loc` by index). -/
def metricLookup (m : List (String × ℚ)) (d : String) : Option ℚ :=
  (m.find? (fun p => p.1 == d)).map (·.2)

/-- One row of the renamed results table used by `main`
(lines 160-162): Driver, TeamName, Position, Points. -/
structure ResultRow where
  driver : String
  teamName : String
  position : ℚ
  points : ℚ
deriving DecidableEq

/-- One row of the per-race table built at lines 165-167. -/
structure RaceRow where
  driver : String
  teamName : String
  position : ℚ
  points : ℚ
  topSpeedST : Option ℚ
  positionsGained : Option ℚ
  avgDegradation : Option ℚ
  avgConsistency : Option ℝ

/-- Lines 165-167: `results.set_index('Driver').join([top_speeds,
start_perf, stint_perf])`.  `DataFrame.join` defaults to a left join on the
index: every results row is kept, and a driver absent from a joined
table gets a null (here `none`) in that table's columns.  The driver-keyed
tables are modelled as association lists with unique keys. -/
noncomputable def buildRaceTable (results : List ResultRow)
    (tops : List (String × ℚ)) (starts : List (String × ℚ))
    (stints : List DriverStintPerf) : List RaceRow :=
  results.map (fun r =>
    { driver := r.driver
      teamName := r.teamName
      position := r.position
      points := r.points
      topSpeedST := metricLookup tops r.driver
      positionsGained := metricLookup starts r.driver
      avgDegradation := degOf stints r.driver
      avgConsistency := consOf stints r.driver })

/-- One row of the event schedule, restricted to the columns the season
loop reads (lines 143-150): EventName, EventFormat. -/
structure Event where
  eventName : String
  eventFormat : String
deriving DecidableEq

/-- Lines 143-145: the season loop iterates `schedule.iloc[1:]` (the first
schedule entry is skipped unconditionally) and `continue`s past events with
`EventFormat == 'testing'`; every other event is handed to the per-race
processing, in schedule order. -/
def seasonLoop (schedule : List Event) : List Event :=
  match schedule with
  | [] => []
  | _ :: rest =>
    rest.foldl (fun acc e => if e.eventFormat == "testing" then acc else acc ++ [e]) []

/-- Lines 149-181: each race's processing is wrapped in a try/except; a
race that raises contributes nothing (modelled as `none`), a race that
succeeds appends its table to `all_race_data`. -/
def collectRaces (outcomes : List (Option (List RaceRow))) : List (List RaceRow) :=
  outcomes.foldl (fun acc o => match o with | some t => acc ++ [t] | none => acc) []

/-- `pd.concat` (line 186): raises `ValueError("No objects to
concatenate")` on an empty list, otherwise stacks the tables in order. -/
def pdConcat (tables : List (List RaceRow)) : Except String (List RaceRow) :=
  if tables.isEmpty then Except.error "No objects to concatenate"
  else Except.ok tables.flatten

/-- Lines 186-190: concatenate `all_race_data` and write the result to
`season_2021-2025_analysis.csv`.  The returned pair (filename, contents) is
produced only when `pd.concat` succeeds; the error case models the
uncaught exception that aborts `main` before `to_csv` runs, leaving any
previously persisted file untouched. -/
def saveFinalResults (allRaceData : List (List RaceRow)) :
    Except String (String × List RaceRow) :=
  (pdConcat allRaceData).map (fun master => ("season_2021-2025_analysis.csv", master))

/-! Concrete fixtures used by the counterexamples and witnesses. -/

/-- Clean lap set with times [90, 90, 90, 90, 90, 96]: the mean is 91, so
the sixth lap's time is exactly the mean plus 5. -/
def cx3laps : List Lap :=
  [⟨"HAM", 1, 1, 90, false, false, "1"⟩,
   ⟨"HAM", 1, 2, 90, false, false, "1"⟩,
   ⟨"HAM", 1, 3, 90, false, false, "1"⟩,
   ⟨"HAM", 1, 4, 90, false, false, "1"⟩,
   ⟨"HAM", 1, 5, 90, false, false, "1"⟩,
   ⟨"HAM", 1, 6, 96, false, false, "1"⟩]

/-- The boundary lap of `cx3laps`: its time equals the set mean plus 5. -/
def cx3lap4 : Lap := ⟨"HAM", 1, 6, 96, false, false, "1"⟩

/-- A stint with only two clean laps. -/
def cx5laps : List Lap :=
  [⟨"ALO", 1, 1, 90, false, false, "1"⟩,
   ⟨"ALO", 1, 2, 91, false, false, "1"⟩]

/-- Driver with two stints.  Stint 1 is ordinary (laps 1-3, times 90, 91,
92).  Stint 2 has three clean laps that share lap number 10 (times 90, 92,
94), so its regression input has identical x values and
`scipy.stats.linregress` raises after the stint's consistency was already
appended at line 102. -/
def cx2laps : List Lap :=
  [⟨"VER", 1, 1, 90, false, false, "1"⟩,
   ⟨"VER", 1, 2, 91, false, false, "1"⟩,
   ⟨"VER", 1, 3, 92, false, false, "1"⟩,
   ⟨"VER", 2, 10, 90, false, false, "1"⟩,
   ⟨"VER", 2, 10, 92, false, false, "1"⟩,
   ⟨"VER", 2, 10, 94, false, false, "1"⟩]

/-- A stint-2 lap set whose final clean laps are numbered 20, 21, 22. -/
def cx1final : List Lap :=
  [⟨"NOR", 2, 20, 90, false, false, "1"⟩,
   ⟨"NOR", 2, 21, 91, false, false, "1"⟩,
   ⟨"NOR", 2, 22, 92, false, false, "1"⟩]

/-- Two drivers for the numerical claim: driver A runs stint 1, laps 1-4,
with strictly increasing times 90, 91, 92, 93; driver B runs stint 1,
laps 1-3, with constant time 90. -/
def cx8laps : List Lap :=
  [⟨"A", 1, 1, 90, false, false, "1"⟩,
   ⟨"A", 1, 2, 91, false, false, "1"⟩,
   ⟨"A", 1, 3, 92, false, false, "1"⟩,
   ⟨"A", 1, 4, 93, false, false, "1"⟩,
   ⟨"B", 1, 1, 90, false, false, "1"⟩,
   ⟨"B", 1, 2, 90, false, false, "1"⟩,
   ⟨"B", 1, 3, 90, false, false, "1"⟩]

/-! Helper lemmas (shared). -/

/-- Folding a skip-or-append accumulator collects exactly the kept elements. -/
lemma foldl_collect {α : Type} (p : α → Bool) (l : List α) (acc : List α) :
    l.foldl (fun a x => if p x then a else a ++ [x]) acc =
      acc ++ l.filter (fun x => !p x) := by
  induction l generalizing acc with
  | nil => simp
  | cons x xs ih =>
    by_cases h : p x <;> simp [h, ih]

/-- Folding a collect-the-somes accumulator over a list of `none`s is the
identity on the accumulator. -/
lemma foldl_collect_none (l : List (Option (List RaceRow)))
    (acc : List (List RaceRow)) (h : ∀ o ∈ l, o = none) :
    l.foldl (fun a o => match o with | some t => a ++ [t] | none => a) acc = acc := by
  induction l generalizing acc with
  | nil => rfl
  | cons x xs ih =>
    have hx : x = none := h x (List.mem_cons_self x xs)
    subst hx
    exact ih acc (fun o ho => h o (List.mem_cons_of_mem _ ho))

/-- A driver key matched by no entry of a metric mapping looks up to `none`. -/
lemma metricLookup_eq_none (m : List (String × ℚ)) (d : String)
    (h : ∀ p ∈ m, p.1 ≠ d) : metricLookup m d = none := by
  rw [metricLookup, Option.map_eq_none', List.find?_eq_none]
  intro p hp
  simpa using h p hp

/-- A driver with no stint-performance record has null average degradation. -/
lemma degOf_eq_none (stints : List DriverStintPerf) (d : String)
    (h : ∀ q ∈ stints, q.driver ≠ d) : degOf stints d = none := by
  have hfind : stints.find? (fun q => q.driver == d) = none := by
    rw [List.find?_eq_none]
    intro q hq
    simpa using h q hq
  rw [degOf, hfind]
  rfl

/-- A driver with no stint-performance record has null average consistency. -/
lemma consOf_eq_none (stints : List DriverStintPerf) (d : String)
    (h : ∀ q ∈ stints, q.driver ≠ d) : consOf stints d = none := by
  have hfind : stints.find? (fun q => q.driver == d) = none := by
    rw [List.find?_eq_none]
    intro q hq
    simpa using h q hq
  rw [consOf, hfind]
  rfl

/-- Membership characterization of the `get_start_performance` output: every
entry comes from a grid row and a lap-1 row joined on the driver key, with
positive grid position, and carries the grid-minus-lap-1 position delta. -/
lemma mem_getStartPerformance (grid : List GridEntry) (lap1 : List Lap1Entry)
    (d : String) (v : ℚ) (h : (d, v) ∈ getStartPerformance grid lap1) :
    ∃ g ∈ grid, ∃ l ∈ lap1, l.driver = d ∧ g.abbreviation = d ∧
      0 < g.gridPosition ∧ v = g.gridPosition - l.position := by
  unfold getStartPerformance at h
  simp only [List.mem_map] at h
  obtain ⟨p, hp, hpe⟩ := h
  simp only [List.mem_filter] at hp
  obtain ⟨hpm, hppos⟩ := hp
  simp only [List.mem_filterMap] at hpm
  obtain ⟨g, hg, hgm⟩ := hpm
  rw [Option.map_eq_some'] at hgm
  obtain ⟨l, hfind, hpl⟩ := hgm
  have hl1 : l ∈ lap1 := List.mem_of_find?_eq_some hfind
  have hbeq : l.driver = g.abbreviation := by
    have := List.find?_some hfind
    exact eq_of_beq this
  subst hpl
  have hd : l.driver = d := congrArg Prod.fst hpe
  have hv : v = g.gridPosition - l.position := (congrArg Prod.snd hpe).symm
  have hpos : 0 < g.gridPosition := of_decide_eq_true hppos
  exact ⟨g, hg, l, hl1, hd, hbeq.symm.trans hd, hpos, hv⟩

/-! Claim theorems. -/

/-- C3 (counterexample): the claim that a lap whose time equals the
filtered-set mean plus 5 exactly is kept is false: in the concrete clean
lap set with times [90, 90, 90, 290/3], the fourth lap's time equals the
mean plus 5 exactly, yet the outlier filter of line 95 removes it. -/
theorem c3_counterexample :
    cx3lap4 ∈ cx3laps ∧ cx3lap4.lapTime = qmean (lapTimes cx3laps) + 5 ∧
    cx3lap4 ∉ outlierFilter cx3laps := by
  refine ⟨by simp [cx3laps, cx3lap4], ?_, ?_⟩
  · norm_num [cx3laps, cx3lap4, qmean, lapTimes]
  · intro hmem
    rw [outlierFilter, List.mem_filter] at hmem
    have hlt := of_decide_eq_true hmem.2
    norm_num [cx3laps, cx3lap4, qmean, lapTimes] at hlt

/-- C3 (amended): the outlier filter of line 95 removes from the filtered
lap set exactly those laps whose lap time is greater than or equal to the
set's mean lap time plus 5 seconds; in particular a lap whose time equals
the mean plus 5 exactly is removed, not kept. -/
theorem c3_theorem (clean : List Lap) (l : Lap) (h : l ∈ clean) :
    l ∉ outlierFilter clean ↔ qmean (lapTimes clean) + 5 ≤ l.lapTime := by
  simp [outlierFilter, List.mem_filter, h, not_lt]

/-- C3 (witness): the amended theorem applied to the concrete clean lap
set of the counterexample. -/
theorem c3_witness :
    cx3lap4 ∉ outlierFilter cx3laps ↔ qmean (lapTimes cx3laps) + 5 ≤ cx3lap4.lapTime :=
  c3_theorem cx3laps cx3lap4 (by simp [cx3laps, cx3lap4])

/-- C5: a stint whose clean lap set has fewer than 3 laps, before or after
the mean+5s outlier filter, contributes nothing: the per-stint step of
`get_stint_performance` returns the accumulator unchanged (a silent skip,
not an error). -/
theorem c5_theorem (stintLaps : List Lap) (acc : List ℚ × List ℝ)
    (h : (cleanLapsOf stintLaps).length < 3 ∨
      (outlierFilter (cleanLapsOf stintLaps)).length < 3) :
    stintStep stintLaps acc = acc := by
  unfold stintStep
  rcases h with h | h
  · simp [h]
  · by_cases h2 : (cleanLapsOf stintLaps).length < 3
    · simp [h2]
    · simp [h2, h]

/-- C5 (witness): a stint with only two clean laps is skipped. -/
theorem c5_witness : stintStep cx5laps ([], []) = ([], []) :=
  c5_theorem cx5laps ([], []) (Or.inl (by decide))

/-- C7: the season loop hands to per-race processing exactly the schedule
with its first entry dropped unconditionally and every event whose format
is `testing` filtered out, in schedule order. -/
theorem c7_theorem (schedule : List Event) :
    seasonLoop schedule =
      (schedule.drop 1).filter (fun e => !(e.eventFormat == "testing")) := by
  cases schedule with
  | nil => rfl
  | cons e rest => exact foldl_collect (fun ev => ev.eventFormat == "testing") rest []

/-- C9: when every race fails to process, `all_race_data` is empty and the
save step fails with the `pd.concat` ValueError before any file is
written: `saveFinalResults` returns the error, not a (filename, table)
pair, so the previously persisted artifact is not replaced. -/
theorem c9_theorem (outcomes : List (Option (List RaceRow)))
    (h : ∀ o ∈ outcomes, o = none) :
    saveFinalResults (collectRaces outcomes) =
      Except.error "No objects to concatenate" := by
  have hempty : collectRaces outcomes = [] := foldl_collect_none outcomes [] h
  rw [hempty]
  rfl

/-- C9 (witness): two failing races yield the concatenation error. -/
theorem c9_witness :
    saveFinalResults (collectRaces [none, none]) =
      Except.error "No objects to concatenate" :=
  c9_theorem [none, none] (by simp)

/-- C6: `get_start_performance` joins grid rows to lap-1 rows by driver
identifier, discards non-positive grid positions, and every emitted value
is the grid position minus the lap-1 position; concretely, P3 to P5 yields
exactly -2 and P10 to P1 yields exactly +9. -/
theorem c6_theorem :
    (∀ (grid : List GridEntry) (lap1 : List Lap1Entry) (d : String) (v : ℚ),
      (d, v) ∈ getStartPerformance grid lap1 →
        ∃ g ∈ grid, ∃ l ∈ lap1, l.driver = d ∧ g.abbreviation = d ∧
          0 < g.gridPosition ∧ v = g.gridPosition - l.position) ∧
    getStartPerformance [⟨"GAS", 3, "T1"⟩] [⟨"GAS", 5⟩] = [("GAS", -2)] ∧
    getStartPerformance [⟨"OCO", 10, "T2"⟩] [⟨"OCO", 1⟩] = [("OCO", 9)] := by
  refine ⟨mem_getStartPerformance, ?_, ?_⟩ <;>
  · simp [getStartPerformance, List.find?, List.filterMap_cons]
    norm_num

/-- C6 (witness): the membership part applied at the P3-to-P5 instance. -/
theorem c6_witness :
    ∃ g ∈ [(⟨"GAS", 3, "T1"⟩ : GridEntry)], ∃ l ∈ [(⟨"GAS", 5⟩ : Lap1Entry)],
      l.driver = "GAS" ∧ g.abbreviation = "GAS" ∧ 0 < g.gridPosition ∧
      (-2 : ℚ) = g.gridPosition - l.position :=
  c6_theorem.1 [⟨"GAS", 3, "T1"⟩] [⟨"GAS", 5⟩] "GAS" (-2)
    (by
      have h : getStartPerformance [⟨"GAS", 3, "T1"⟩] [⟨"GAS", 5⟩] = [("GAS", -2)] := by
        simp [getStartPerformance, List.find?, List.filterMap_cons]
        norm_num
      rw [h]
      exact List.mem_singleton.mpr rfl)

/-- C10: the grid-to-lap-1 merge is an inner join: a driver absent from
the lap-1 rows, or absent from the grid rows, is omitted from the mapping
returned by `get_start_performance` (absent, not null, not an error), and
the per-race left join of lines 165-167 then gives that driver a null
`PositionsGained` while keeping their results row. -/
theorem c10_theorem (grid : List GridEntry) (lap1 : List Lap1Entry) (d : String)
    (habs : (∀ l ∈ lap1, l.driver ≠ d) ∨ (∀ g ∈ grid, g.abbreviation ≠ d)) :
    metricLookup (getStartPerformance grid lap1) d = none ∧
    ∀ (results : List ResultRow) (tops : List (String × ℚ))
      (stints : List DriverStintPerf), ∀ r ∈ results, r.driver = d →
        ∃ row ∈ buildRaceTable results tops (getStartPerformance grid lap1) stints,
          row.driver = d ∧ row.positionsGained = none := by
  have hnone : metricLookup (getStartPerformance grid lap1) d = none := by
    rw [metricLookup, Option.map_eq_none', List.find?_eq_none]
    rintro ⟨d1, v⟩ hmem
    obtain ⟨g, hg, l, hl, hld, hgd, -, -⟩ := mem_getStartPerformance grid lap1 d1 v hmem
    rcases habs with habs | habs
    · have := habs l hl
      simp only [beq_iff_eq]
      intro hcon
      exact this (hld.trans hcon)
    · have := habs g hg
      simp only [beq_iff_eq]
      intro hcon
      exact this (hgd.trans hcon)
  refine ⟨hnone, ?_⟩
  intro results tops stints r hr hrd
  refine ⟨{ driver := r.driver, teamName := r.teamName, position := r.position,
            points := r.points,
            topSpeedST := metricLookup tops r.driver,
            positionsGained := metricLookup (getStartPerformance grid lap1) r.driver,
            avgDegradation := degOf stints r.driver,
            avgConsistency := consOf stints r.driver }, ?_, hrd, ?_⟩
  · rw [buildRaceTable]
    exact List.mem_map_of_mem _ hr
  · rw [hrd, hnone]

/-- C10 (witness): a driver present in the grid but absent from the lap-1
data is absent from the start-performance mapping. -/
theorem c10_witness :
    metricLookup (getStartPerformance [⟨"SAI", 4, "T3"⟩] []) "SAI" = none := by
  have h := c10_theorem [⟨"SAI", 4, "T3"⟩] [] "SAI" (Or.inl (by simp))
  exact h.1

/-- C4: the per-race table keeps one row per results driver, in order, and
a driver missing from an extractor's output (for instance one with zero
lap records) keeps their row with `none` in that extractor's columns
rather than being dropped. -/
theorem c4_theorem (results : List ResultRow) (tops starts : List (String × ℚ))
    (stints : List DriverStintPerf) :
    ((buildRaceTable results tops starts stints).map (fun row => row.driver) =
      results.map (fun r => r.driver)) ∧
    ∀ row ∈ buildRaceTable results tops starts stints,
      ((∀ p ∈ tops, p.1 ≠ row.driver) → row.topSpeedST = none) ∧
      ((∀ p ∈ starts, p.1 ≠ row.driver) → row.positionsGained = none) ∧
      ((∀ q ∈ stints, q.driver ≠ row.driver) →
        row.avgDegradation = none ∧ row.avgConsistency = none) := by
  constructor
  · simp [buildRaceTable, List.map_map]
  · intro row hrow
    simp only [buildRaceTable, List.mem_map] at hrow
    obtain ⟨r, hr, hre⟩ := hrow
    subst hre
    exact ⟨fun h => metricLookup_eq_none tops r.driver h,
           fun h => metricLookup_eq_none starts r.driver h,
           fun h => ⟨degOf_eq_none stints r.driver h,
                     consOf_eq_none stints r.driver h⟩⟩

/-- C4 (witness): with empty extractor outputs, the single classified
driver keeps a row whose metric columns are all null. -/
theorem c4_witness :
    (⟨"PIA", "McLaren", 1, 25, none, none, none, none⟩ : RaceRow).topSpeedST = none ∧
    (⟨"PIA", "McLaren", 1, 25, none, none, none, none⟩ : RaceRow).avgDegradation = none ∧
    (⟨"PIA", "McLaren", 1, 25, none, none, none, none⟩ : RaceRow).avgConsistency = none := by
  have h := c4_theorem [⟨"PIA", "McLaren", 1, 25⟩] [] [] []
  have hmem : (⟨"PIA", "McLaren", 1, 25, none, none, none, none⟩ : RaceRow) ∈
      buildRaceTable [⟨"PIA", "McLaren", 1, 25⟩] [] [] [] := by
    rw [buildRaceTable]
    exact List.mem_singleton.mpr rfl
  have h2 := h.2 _ hmem
  exact ⟨h2.1 (by simp), (h2.2.2 (by simp)).1, (h2.2.2 (by simp)).2⟩

/-- C1: line 105 subtracts the minimum of the Stint column (the stint
number), not the stint's first lap number.  On a stint numbered 2 whose
final clean laps are numbered 20, 21, 22, the code's regression indices
are [19, 20, 21] — not the [1, 2, 3] the claim describes (indices do not
start at 1).  The slope is unaffected because the x values are shifted by
a constant, but the claimed index computation does not hold. -/
theorem c1_code_eval :
    stintLapIndices cx1final = [19, 20, 21] ∧
    specStintLapIndices cx1final = [1, 2, 3] ∧
    stintLapIndices cx1final ≠ specStintLapIndices cx1final := by
  norm_num [stintLapIndices, specStintLapIndices, cx1final, intMin]

set_option maxHeartbeats 2000000 in
/-- C2: evaluation of the per-driver stint loop on `cx2laps`.  Stint 2
raises in `linregress` (all regression x values are identical), yet its
consistency, appended at line 102 before the regression is attempted,
still contributes: `driver_cons` ends as [std of stint 1, std of stint 2]
while `driver_degs` is [slope of stint 1] only — so a value derived from
the excepting stint does reach `AvgConsistency`, contradicting the claim
that such a stint contributes no value. -/
theorem c2_code_eval :
    (processDriver cx2laps "VER").1 = [1] ∧
    (processDriver cx2laps "VER").2 =
      [seriesStd [90, 91, 92], seriesStd [90, 92, 94]] ∧
    linregressSlope
      (stintLapIndices (outlierFilter (cleanLapsOf
        (cx2laps.filter (fun l => l.stint == 2)))))
      (lapTimes (outlierFilter (cleanLapsOf
        (cx2laps.filter (fun l => l.stint == 2))))) = none := by
  refine ⟨?_, ?_, ?_⟩
  · norm_num [processDriver, cx2laps, uniqueKeep, stintStep, cleanLapsOf, pickWoBox,
      outlierFilter, lapTimes, qmean, linregressSlope, stintLapIndices, intMin,
      List.filterMap_cons, List.find?]
  · norm_num [processDriver, cx2laps, uniqueKeep, stintStep, cleanLapsOf, pickWoBox,
      outlierFilter, lapTimes, qmean, linregressSlope, stintLapIndices, intMin,
      List.filterMap_cons, List.find?]
  · norm_num [cx2laps, cleanLapsOf, pickWoBox, outlierFilter, lapTimes, qmean,
      linregressSlope, stintLapIndices, intMin]

set_option maxHeartbeats 2000000 in
/-- C8: on driver A's stint with lap times 90, 91, 92, 93 over stint-lap
indices 1, 2, 3, 4 the recorded degradation is exactly 1 second per lap,
and on driver B's constant 90-90-90 stint the recorded consistency
(standard deviation) is exactly 0. -/
theorem c8_theorem :
    degOf (getStintPerformance cx8laps) "A" = some 1 ∧
    consOf (getStintPerformance cx8laps) "B" = some 0 := by
  have hfA : cx8laps.filter (fun l => l.driver == "A") =
      [⟨"A", 1, 1, 90, false, false, "1"⟩, ⟨"A", 1, 2, 91, false, false, "1"⟩,
       ⟨"A", 1, 3, 92, false, false, "1"⟩, ⟨"A", 1, 4, 93, false, false, "1"⟩] := by
    simp [cx8laps]
  have hfB : cx8laps.filter (fun l => l.driver == "B") =
      [⟨"B", 1, 1, 90, false, false, "1"⟩, ⟨"B", 1, 2, 90, false, false, "1"⟩,
       ⟨"B", 1, 3, 90, false, false, "1"⟩] := by
    simp [cx8laps]
  have hPA : processDriver cx8laps "A" = ([1], [seriesStd [90, 91, 92, 93]]) := by
    unfold processDriver
    rw [hfA]
    norm_num [uniqueKeep, stintStep, cleanLapsOf, pickWoBox,
      outlierFilter, lapTimes, qmean, linregressSlope, stintLapIndices, intMin]
  have hPB : processDriver cx8laps "B" = ([0], [seriesStd [90, 90, 90]]) := by
    unfold processDriver
    rw [hfB]
    norm_num [uniqueKeep, stintStep, cleanLapsOf, pickWoBox,
      outlierFilter, lapTimes, qmean, linregressSlope, stintLapIndices, intMin]
  have hu : uniqueKeep (cx8laps.map (fun l => l.driver)) = ["A", "B"] := by
    simp [uniqueKeep, cx8laps]
  have hlist : getStintPerformance cx8laps =
      [⟨"A", qmean [1], rmean [seriesStd [90, 91, 92, 93]]⟩,
       ⟨"B", qmean [0], rmean [seriesStd [90, 90, 90]]⟩] := by
    rw [getStintPerformance, hu]
    simp [List.filterMap_cons, hPA, hPB]
  have hvar : sampleVar [(90 : ℚ), 90, 90] = 0 := by
    norm_num [sampleVar, qmean]
  have hstd : seriesStd [(90 : ℚ), 90, 90] = 0 := by
    rw [seriesStd, hvar]
    simp
  constructor
  · rw [hlist]
    simp [degOf, List.find?]
    norm_num [qmean]
  · rw [hlist]
    simp [consOf, List.find?]
    rw [hstd]
    simp [rmean]

end F1
